import Mathlib

/-!
Shallow embedding of the performance-metrics aggregation and caching
subsystem of DevInspect (src/content/modules/performance.ts).

Numbers are modelled as rationals (ℚ): the source operates on JS numbers
and none of the verified properties depends on floating-point artifacts.
Nullable JS values become Option; code that can throw is modelled in
Except, with the catch-all handlers of the source appearing as explicit
match-on-error fallbacks.
-/

namespace DevInspect

/-- Severity union type of the source: 'high' | 'medium' | 'low'. -/
inductive Severity where
  | high
  | medium
  | low
deriving Repr, DecidableEq

/-- interface PerformanceWarning { title; solution; severity }. -/
structure PerformanceWarning where
  title : String
  solution : String
  severity : Severity
deriving Repr, DecidableEq

/-- The five web-vitals fields of PerformanceMetrics (content/types.ts):
lcp, fid, inp, ttfb are nullable numbers, cls is a number. -/
structure PerformanceMetrics where
  lcp : Option ℚ
  cls : ℚ
  fid : Option ℚ
  inp : Option ℚ
  ttfb : Option ℚ
deriving Repr, DecidableEq

/-- interface ExtendedPerformanceMetrics extends PerformanceMetrics with
DOM/resource counts and the warnings array. -/
structure ExtendedPerformanceMetrics where
  lcp : Option ℚ
  fid : Option ℚ
  cls : ℚ
  ttfb : Option ℚ
  inp : Option ℚ
  totalNodes : ℕ
  totalImages : ℕ
  totalScripts : ℕ
  totalStylesheets : ℕ
  warnings : List PerformanceWarning
deriving Repr, DecidableEq

/-- A resource-timing entry as consumed by calculatePerformanceMetrics:
only initiatorType and transferSize are read.  transferSize is Option
because the source guards every read with a JS default: (r.transferSize
or-else 0). -/
structure Resource where
  initiatorType : String
  transferSize : Option ℚ
deriving Repr, DecidableEq

/-- The JS expression (x or-else 0) applied to a possibly-missing
transferSize. -/
def orZero (o : Option ℚ) : ℚ := o.getD 0

/-- The source's nullable-threshold comparisons, e.g.
observedVitals.lcp !== null && observedVitals.lcp > 2500. -/
def optGt (o : Option ℚ) (t : ℚ) : Bool :=
  match o with
  | none => false
  | some x => decide (t < x)

/-- ECMAScript Number.prototype.toFixed picks the integer n for which
n / 10^f is closest to x, ties to the larger n; for f = 0 that is
floor (x + 1/2). -/
def jsRound (q : ℚ) : ℤ := ⌊q + 1 / 2⌋

/-- x.toFixed(0) for the nonnegative magnitudes this module formats. -/
def toFixed0 (q : ℚ) : String := toString (jsRound q)

/-- Three-digit zero padding for the fractional part of toFixed(3). -/
def pad3 (n : ℕ) : String :=
  if n < 10 then "00" ++ toString n
  else if n < 100 then "0" ++ toString n
  else toString n

/-- x.toFixed(3) for the nonnegative magnitudes this module formats. -/
def toFixed3 (q : ℚ) : String :=
  let n : ℤ := jsRound (q * 1000)
  toString (n / 1000) ++ "." ++ pad3 (n % 1000).toNat

/-- JS template-literal stringification of a number.  The verified claims
only exercise the integer case, which this renders exactly; a
non-integral rational is shown as num/den, an idealisation no theorem
below depends on. -/
def jsNumRepr (q : ℚ) : String :=
  if q.den = 1 then toString q.num else toString q

/-- JS template-literal stringification of a nullable number. -/
def jsOptRepr (o : Option ℚ) : String :=
  match o with
  | none => "null"
  | some q => jsNumRepr q

/-- getEmptyMetrics(): the zeroed/empty fallback snapshot. -/
def getEmptyMetrics : ExtendedPerformanceMetrics :=
  { lcp := none
    fid := none
    cls := 0
    ttfb := none
    inp := none
    totalNodes := 0
    totalImages := 0
    totalScripts := 0
    totalStylesheets := 0
    warnings := [] }

/-! ### Warning derivation rules

Each rule mirrors one conditional push in calculatePerformanceMetrics;
the warnings array is their in-order concatenation. -/

def largeImagesSolution : String :=
  "Compress images, convert to WebP/AVIF, use responsive images with srcset, implement lazy loading"

def clsSolution : String :=
  "Set explicit width/height on images and ads. Reserve space for dynamic content. Avoid inserting content above existing content"

def ttfbSolution : String :=
  "Optimize backend queries, use CDN, implement server-side caching, upgrade hosting plan"

def interactivitySolution : String :=
  "Reduce JavaScript execution time, break up long tasks, use web workers for heavy computation"

def heavyScriptsSolution : String :=
  "Code-split bundles, defer non-critical JS, remove unused dependencies, enable compression"

def missingAltSolution : String :=
  "Add descriptive alt text to all images for accessibility and SEO"

/-- WARNING 1: large images, only when lcpIsBad; filters image resources
with transferSize over 200000 bytes and reports count plus average KB. -/
def warningLargeImages (lcpIsBad : Bool) (images : List Resource) :
    Option PerformanceWarning :=
  if lcpIsBad then
    let largeImages := images.filter (fun img => decide (orZero img.transferSize > 200000))
    if largeImages.length > 0 then
      let avgSize := toFixed0
        (largeImages.foldl (fun sum img => sum + orZero img.transferSize) 0
          / (largeImages.length : ℚ) / 1024)
      some
        { title := toString largeImages.length ++ " large images detected (avg "
            ++ avgSize ++ "KB)"
          solution := largeImagesSolution
          severity := .high }
    else none
  else none

/-- WARNING 2: layout stability; the source checks cls !== null first but
cls has non-nullable type number, so the guard reduces to cls > 0.1. -/
def warningCls (v : PerformanceMetrics) : Option PerformanceWarning :=
  if v.cls > 0.1 then
    some
      { title := "Poor layout stability (CLS: " ++ toFixed3 v.cls ++ ")"
        solution := clsSolution
        severity := .high }
  else none

/-- WARNING 3: slow server response when ttfb !== null && ttfb > 800; the
cast (observedVitals.ttfb as number) is the getD under the guard. -/
def warningTtfb (v : PerformanceMetrics) : Option PerformanceWarning :=
  if optGt v.ttfb 800 then
    some
      { title := "Slow server response time (" ++ toFixed0 (v.ttfb.getD 0) ++ "ms)"
        solution := ttfbSolution
        severity := .medium }
  else none

/-- WARNING 4: poor interactivity when fidIsBad || inpIsBad, preferring
FID in the message text. -/
def warningInteractivity (v : PerformanceMetrics) : Option PerformanceWarning :=
  if optGt v.fid 100 || optGt v.inp 200 then
    let metric :=
      if optGt v.fid 100 then "FID: " ++ jsOptRepr v.fid ++ "ms"
      else "INP: " ++ jsOptRepr v.inp ++ "ms"
    some
      { title := "Slow interactivity detected (" ++ metric ++ ")"
        solution := interactivitySolution
        severity := .high }
  else none

/-- WARNING 5: heavy JavaScript, only when lcpIsBad; filters script
resources over 500000 bytes and reports total KB and file count. -/
def warningHeavyScripts (lcpIsBad : Bool) (scripts : List Resource) :
    Option PerformanceWarning :=
  if lcpIsBad then
    let largeScripts := scripts.filter (fun s => decide (orZero s.transferSize > 500000))
    if largeScripts.length > 0 then
      let totalSize := toFixed0
        (largeScripts.foldl (fun sum s => sum + orZero s.transferSize) 0 / 1024)
      some
        { title := "Heavy JavaScript detected (" ++ totalSize ++ "KB across "
            ++ toString largeScripts.length ++ " files)"
          solution := heavyScriptsSolution
          severity := .medium }
    else none
  else none

/-- WARNING 6: images missing alt attributes. -/
def warningMissingAlt (imgsWithoutAlt : ℕ) : Option PerformanceWarning :=
  if imgsWithoutAlt > 0 then
    some
      { title := toString imgsWithoutAlt ++ " images missing alt attributes"
        solution := missingAltSolution
        severity := .low }
  else none

/-- The browser-facing inputs of calculatePerformanceMetrics.  Each DOM
or resource-timing access may throw (Except.error), which the source
catches at the top level of the function. -/
structure PerfEnv where
  windowPerformance : Bool
  totalNodes : Except Unit ℕ
  resources : Except Unit (List Resource)
  imgsWithoutAlt : Except Unit ℕ
deriving Repr

/-- Body of calculatePerformanceMetrics inside its try block: the DOM
and resource-timing reads in source order, the per-rule warning pushes,
and the assembled snapshot. -/
def calcCore (env : PerfEnv) (v : PerformanceMetrics) :
    Except Unit ExtendedPerformanceMetrics :=
  match env.totalNodes with
  | .error e => .error e
  | .ok totalNodes =>
    match env.resources with
    | .error e => .error e
    | .ok resources =>
      let images := resources.filter (fun r => r.initiatorType == "img")
      let scripts := resources.filter (fun r => r.initiatorType == "script")
      let stylesheets := resources.filter
        (fun r => r.initiatorType == "link" || r.initiatorType == "css")
      let lcpIsBad := optGt v.lcp 2500
      let warnings :=
        (warningLargeImages lcpIsBad images).toList
          ++ (warningCls v).toList
          ++ (warningTtfb v).toList
          ++ (warningInteractivity v).toList
          ++ (warningHeavyScripts lcpIsBad scripts).toList
      match env.imgsWithoutAlt with
      | .error e => .error e
      | .ok imgsWithoutAlt =>
        let warnings := warnings ++ (warningMissingAlt imgsWithoutAlt).toList
        .ok
          { lcp := v.lcp
            fid := v.fid
            cls := v.cls
            ttfb := v.ttfb
            inp := v.inp
            totalNodes := totalNodes
            totalImages := images.length
            totalScripts := scripts.length
            totalStylesheets := stylesheets.length
            warnings := warnings }

/-- calculatePerformanceMetrics: the early return when window.performance
is falsy, then the try/catch around calcCore with getEmptyMetrics as the
catch-all fallback. -/
def calculatePerformanceMetrics (env : PerfEnv) (v : PerformanceMetrics) :
    ExtendedPerformanceMetrics :=
  if !env.windowPerformance then getEmptyMetrics
  else
    match calcCore env v with
    | .ok m => m
    | .error _ => getEmptyMetrics

/-! ### Module-level mutable state and its operations

The source module holds four top-level mutable bindings
(cachedPerformanceMetrics, lastMetricsCalculationTime,
vitalsObserversInitialized, observedVitals); the embedding threads them
through an explicit record.  activeObservers records the
PerformanceObserver subscriptions created by initWebVitals; the source
never stores those handles, which the model reflects by never removing
elements from the list. -/

/-- The four kinds of PerformanceObserver subscriptions initWebVitals
registers (largest-contentful-paint, layout-shift, first-input, event). -/
inductive ObserverKind where
  | lcp
  | cls
  | fid
  | inp
deriving Repr, DecidableEq, BEq

/-- The module's top-level mutable state. -/
structure ModuleState where
  cachedPerformanceMetrics : Option ExtendedPerformanceMetrics
  lastMetricsCalculationTime : ℚ
  vitalsObserversInitialized : Bool
  observedVitals : PerformanceMetrics
  activeObservers : List ObserverKind
deriving Repr, DecidableEq

/-- const METRICS_CACHE_DURATION = 5000. -/
def METRICS_CACHE_DURATION : ℚ := 5000

/-- Initial value of observedVitals. -/
def initialVitals : PerformanceMetrics :=
  { lcp := none, cls := 0, fid := none, inp := none, ttfb := none }

/-- Module state at load time. -/
def initialState : ModuleState :=
  { cachedPerformanceMetrics := none
    lastMetricsCalculationTime := 0
    vitalsObserversInitialized := false
    observedVitals := initialVitals
    activeObservers := [] }

/-- getPerformanceMetrics(+now from Date.now): return the cached snapshot
while it is younger than METRICS_CACHE_DURATION, otherwise recompute,
cache the result with the current timestamp and return it.  The outer
try/catch of the source is unreachable here because
calculatePerformanceMetrics already catches internally and Date.now does
not throw, which the total Lean function reflects. -/
def getPerformanceMetrics (env : PerfEnv) (now : ℚ) (s : ModuleState) :
    ExtendedPerformanceMetrics × ModuleState :=
  match s.cachedPerformanceMetrics with
  | some cached =>
    if now - s.lastMetricsCalculationTime < METRICS_CACHE_DURATION then
      (cached, s)
    else
      let metrics := calculatePerformanceMetrics env s.observedVitals
      (metrics,
        { s with
            cachedPerformanceMetrics := some metrics
            lastMetricsCalculationTime := now })
  | none =>
    let metrics := calculatePerformanceMetrics env s.observedVitals
    (metrics,
      { s with
          cachedPerformanceMetrics := some metrics
          lastMetricsCalculationTime := now })

/-- clearPerformanceCache(). -/
def clearPerformanceCache (s : ModuleState) : ModuleState :=
  { s with
      cachedPerformanceMetrics := none
      lastMetricsCalculationTime := 0 }

/-- resetWebVitals(): zero/absent all five observedVitals fields, clear
the idempotency flag, clear the cache.  The source does not disconnect
any PerformanceObserver (their handles were dropped inside initWebVitals),
so activeObservers is untouched.  The try/catch body cannot throw. -/
def resetWebVitals (s : ModuleState) : ModuleState :=
  clearPerformanceCache
    { s with
        observedVitals := initialVitals
        vitalsObserversInitialized := false }

/-- The navigation-timing entry read for TTFB. -/
structure NavTiming where
  responseStart : ℚ
  requestStart : ℚ
deriving Repr, DecidableEq

/-- Browser capabilities consumed by initWebVitals: whether
PerformanceObserver exists, whether each observe() call succeeds, and
the optional navigation-timing entry (none covers both an absent entry
and a throwing getEntriesByType, which the source treats alike). -/
structure InitEnv where
  poAvailable : Bool
  lcpObserveOk : Bool
  clsObserveOk : Bool
  fidObserveOk : Bool
  inpObserveOk : Bool
  navEntry : Option NavTiming
deriving Repr, DecidableEq

/-- initWebVitals(): no-op when the flag is set or PerformanceObserver is
unavailable; otherwise set the flag, register each supported observer
(a throwing observe() skips just that one), and compute TTFB from the
navigation entry when present. -/
def initWebVitals (ienv : InitEnv) (s : ModuleState) : ModuleState :=
  if s.vitalsObserversInitialized then s
  else if !ienv.poAvailable then s
  else
    let s1 := { s with vitalsObserversInitialized := true }
    let s2 :=
      if ienv.lcpObserveOk then
        { s1 with activeObservers := s1.activeObservers ++ [ObserverKind.lcp] }
      else s1
    let s3 :=
      if ienv.clsObserveOk then
        { s2 with activeObservers := s2.activeObservers ++ [ObserverKind.cls] }
      else s2
    let s4 :=
      if ienv.fidObserveOk then
        { s3 with activeObservers := s3.activeObservers ++ [ObserverKind.fid] }
      else s3
    let s5 :=
      if ienv.inpObserveOk then
        { s4 with activeObservers := s4.activeObservers ++ [ObserverKind.inp] }
      else s4
    match ienv.navEntry with
    | some nav =>
      { s5 with
          observedVitals :=
            { s5.observedVitals with
                ttfb := some (nav.responseStart - nav.requestStart) } }
    | none => s5

/-- A layout-shift entry as read by the CLS observer callback. -/
structure LayoutShiftEntry where
  hadRecentInput : Bool
  value : ℚ
deriving Repr, DecidableEq

/-- Body of the CLS observer callback: for every delivered entry not
flagged hadRecentInput, add its value to the running cls total. -/
def clsCallback (entries : List LayoutShiftEntry) (v : PerformanceMetrics) :
    PerformanceMetrics :=
  entries.foldl
    (fun vv e => if e.hadRecentInput then vv else { vv with cls := vv.cls + e.value })
    v

/-- Delivery of a layout-shift batch to the page: every active
layout-shift subscription runs its callback once on the shared store. -/
def deliverLayoutShift (entries : List LayoutShiftEntry) (s : ModuleState) :
    ModuleState :=
  { s with
      observedVitals :=
        (clsCallback entries)^[s.activeObservers.count ObserverKind.cls]
          s.observedVitals }

/-! ### Concrete fixtures used by witnesses and counterexamples -/

/-- One image resource of 300000 transferred bytes. -/
def imgResource300k : Resource := { initiatorType := "img", transferSize := some 300000 }

/-- Environment whose only resource is the 300000-byte image. -/
def envOneLargeImage : PerfEnv :=
  { windowPerformance := true
    totalNodes := .ok 10
    resources := .ok [imgResource300k]
    imgsWithoutAlt := .ok 0 }

/-- Environment with no resources and no alt-less images. -/
def envPlain : PerfEnv :=
  { windowPerformance := true
    totalNodes := .ok 0
    resources := .ok []
    imgsWithoutAlt := .ok 0 }

/-- Environment whose DOM query throws. -/
def envFailing : PerfEnv :=
  { windowPerformance := true
    totalNodes := .error ()
    resources := .ok []
    imgsWithoutAlt := .ok 0 }

/-- Vitals with lcp = 3000 and everything else at its initial value. -/
def vitalsLcp3000 : PerformanceMetrics := { initialVitals with lcp := some 3000 }

/-- Vitals with lcp = 2000 and everything else at its initial value. -/
def vitalsLcp2000 : PerformanceMetrics := { initialVitals with lcp := some 2000 }

/-- Vitals with cls = 0.12345. -/
def vitalsCls012345 : PerformanceMetrics := { initialVitals with cls := 0.12345 }

/-- Vitals with ttfb = 799.6. -/
def vitalsTtfb7996 : PerformanceMetrics := { initialVitals with ttfb := some 799.6 }

/-- Vitals with ttfb = 800.1. -/
def vitalsTtfb8001 : PerformanceMetrics := { initialVitals with ttfb := some 800.1 }

/-- Vitals with fid = 150 and inp = 300, both past their thresholds. -/
def vitalsSlowInteraction : PerformanceMetrics :=
  { initialVitals with fid := some 150, inp := some 300 }

/-- Two layout-shift batches: values 0.1 (kept), 5 (recent input,
dropped) and 0.2 (kept). -/
def shiftBatchesExample : List (List LayoutShiftEntry) :=
  [[{ hadRecentInput := false, value := 0.1 }, { hadRecentInput := true, value := 5 }],
   [{ hadRecentInput := false, value := 0.2 }]]

/-- Fully capable browser: PerformanceObserver present, all four observe
calls succeed, no navigation entry. -/
def ienvAll : InitEnv :=
  { poAvailable := true
    lcpObserveOk := true
    clsObserveOk := true
    fidObserveOk := true
    inpObserveOk := true
    navEntry := none }

/-! ### Helper lemmas -/

theorem calc_initial_fields (env : PerfEnv) :
    (calculatePerformanceMetrics env initialVitals).lcp = none
    ∧ (calculatePerformanceMetrics env initialVitals).fid = none
    ∧ (calculatePerformanceMetrics env initialVitals).inp = none
    ∧ (calculatePerformanceMetrics env initialVitals).ttfb = none
    ∧ (calculatePerformanceMetrics env initialVitals).cls = 0 := by
  obtain ⟨wp, tn, rs, ia⟩ := env
  cases wp
  · exact ⟨rfl, rfl, rfl, rfl, rfl⟩
  · cases tn with
    | error e => exact ⟨rfl, rfl, rfl, rfl, rfl⟩
    | ok n =>
      cases rs with
      | error e => exact ⟨rfl, rfl, rfl, rfl, rfl⟩
      | ok l =>
        cases ia with
        | error e => exact ⟨rfl, rfl, rfl, rfl, rfl⟩
        | ok k => exact ⟨rfl, rfl, rfl, rfl, rfl⟩

/-- C1: getPerformanceMetrics returns the cached snapshot unchanged (for
any browser environment, hence without invoking the aggregator) when a
cache entry exists and now minus its timestamp is strictly below 5000 ms;
otherwise it invokes the aggregator, stores the result with timestamp
now, and returns it. -/
theorem getPerformanceMetrics_cache_spec (env : PerfEnv) (now : ℚ) (s : ModuleState)
    (m : ExtendedPerformanceMetrics) :
    (s.cachedPerformanceMetrics = some m →
      now - s.lastMetricsCalculationTime < 5000 →
      getPerformanceMetrics env now s = (m, s))
    ∧ ((s.cachedPerformanceMetrics = none ∨ 5000 ≤ now - s.lastMetricsCalculationTime) →
      getPerformanceMetrics env now s =
        (calculatePerformanceMetrics env s.observedVitals,
          { s with
              cachedPerformanceMetrics := some (calculatePerformanceMetrics env s.observedVitals)
              lastMetricsCalculationTime := now })) := by
  constructor
  · intro hc hfresh
    unfold getPerformanceMetrics
    rw [hc]
    simp [METRICS_CACHE_DURATION, hfresh]
  · intro hc
    unfold getPerformanceMetrics
    rcases hc with hc | hstale
    · rw [hc]
    · cases hcache : s.cachedPerformanceMetrics with
      | none => rfl
      | some m0 => simp [METRICS_CACHE_DURATION, not_lt.mpr hstale]

/-- Witness for C1: a snapshot cached at time 0 is returned unchanged at
time 4999 and recomputed at time 5001. -/
theorem getPerformanceMetrics_cache_spec_witness :
    getPerformanceMetrics envPlain 4999
        { initialState with cachedPerformanceMetrics := some getEmptyMetrics } =
      (getEmptyMetrics,
        { initialState with cachedPerformanceMetrics := some getEmptyMetrics })
    ∧ getPerformanceMetrics envPlain 5001
        { initialState with cachedPerformanceMetrics := some getEmptyMetrics } =
      (calculatePerformanceMetrics envPlain
          ({ initialState with
              cachedPerformanceMetrics := some getEmptyMetrics } : ModuleState).observedVitals,
        { ({ initialState with
              cachedPerformanceMetrics := some getEmptyMetrics } : ModuleState) with
            cachedPerformanceMetrics :=
              some (calculatePerformanceMetrics envPlain
                ({ initialState with
                    cachedPerformanceMetrics := some getEmptyMetrics } : ModuleState).observedVitals)
            lastMetricsCalculationTime := 5001 }) :=
  ⟨(getPerformanceMetrics_cache_spec envPlain 4999
      { initialState with cachedPerformanceMetrics := some getEmptyMetrics }
      getEmptyMetrics).1 rfl (by norm_num [initialState]),
   (getPerformanceMetrics_cache_spec envPlain 5001
      { initialState with cachedPerformanceMetrics := some getEmptyMetrics }
      getEmptyMetrics).2 (Or.inr (by norm_num [initialState]))⟩

/-- C2: whenever a DOM or resource-timing access throws inside the
aggregation (calcCore reports an error), calculatePerformanceMetrics
returns the fallback snapshot whose vitals are all absent or zero, whose
four counts are zero and whose warnings list is empty.  Every operation
of the embedded core is a total Lean function, mirroring the propagation
policy that no exception escapes to a caller. -/
theorem calculatePerformanceMetrics_fallback (env : PerfEnv) (v : PerformanceMetrics)
    (h : calcCore env v = .error ()) :
    calculatePerformanceMetrics env v = getEmptyMetrics
    ∧ getEmptyMetrics.lcp = none ∧ getEmptyMetrics.fid = none
    ∧ getEmptyMetrics.inp = none ∧ getEmptyMetrics.ttfb = none
    ∧ getEmptyMetrics.cls = 0
    ∧ getEmptyMetrics.totalNodes = 0 ∧ getEmptyMetrics.totalImages = 0
    ∧ getEmptyMetrics.totalScripts = 0 ∧ getEmptyMetrics.totalStylesheets = 0
    ∧ getEmptyMetrics.warnings = [] := by
  refine ⟨?_, rfl, rfl, rfl, rfl, rfl, rfl, rfl, rfl, rfl, rfl⟩
  unfold calculatePerformanceMetrics
  rw [h]
  cases hw : env.windowPerformance <;> simp

/-- Witness for C2: a throwing DOM query yields the empty fallback. -/
theorem calculatePerformanceMetrics_fallback_witness :
    calcCore envFailing initialVitals = .error ()
    ∧ calculatePerformanceMetrics envFailing initialVitals = getEmptyMetrics :=
  ⟨rfl, (calculatePerformanceMetrics_fallback envFailing initialVitals rfl).1⟩

/-- C7: resetWebVitals zeroes/absents all five store fields, clears the
idempotency flag and invalidates the cache, so the next
getPerformanceMetrics call recomputes from the fresh store (for any
environment and time) and its snapshot carries only fresh-state vitals. -/
theorem resetWebVitals_clears_state (env : PerfEnv) (now : ℚ) (s : ModuleState) :
    (resetWebVitals s).observedVitals = initialVitals
    ∧ (resetWebVitals s).vitalsObserversInitialized = false
    ∧ (resetWebVitals s).cachedPerformanceMetrics = none
    ∧ (resetWebVitals s).lastMetricsCalculationTime = 0
    ∧ getPerformanceMetrics env now (resetWebVitals s) =
        (calculatePerformanceMetrics env initialVitals,
          { resetWebVitals s with
              cachedPerformanceMetrics :=
                some (calculatePerformanceMetrics env initialVitals)
              lastMetricsCalculationTime := now })
    ∧ (getPerformanceMetrics env now (resetWebVitals s)).1.lcp = none
    ∧ (getPerformanceMetrics env now (resetWebVitals s)).1.fid = none
    ∧ (getPerformanceMetrics env now (resetWebVitals s)).1.inp = none
    ∧ (getPerformanceMetrics env now (resetWebVitals s)).1.ttfb = none
    ∧ (getPerformanceMetrics env now (resetWebVitals s)).1.cls = 0 := by
  obtain ⟨e1, e2, e3, e4, e5⟩ := calc_initial_fields env
  exact ⟨rfl, rfl, rfl, rfl, rfl, e1, e2, e3, e4, e5⟩

/-- C10: when the aggregation fails and the cache is empty,
getPerformanceMetrics caches the empty fallback with the current
timestamp, and any call within the next 5000 ms (with any environment,
even a healthy one) returns that cached fallback without recomputing. -/
theorem empty_fallback_cached (env1 env2 : PerfEnv) (now1 now2 : ℚ) (s : ModuleState)
    (h0 : s.cachedPerformanceMetrics = none)
    (h1 : calcCore env1 s.observedVitals = .error ())
    (h2 : now2 - now1 < 5000) :
    (getPerformanceMetrics env1 now1 s).1 = getEmptyMetrics
    ∧ (getPerformanceMetrics env1 now1 s).2.cachedPerformanceMetrics = some getEmptyMetrics
    ∧ (getPerformanceMetrics env1 now1 s).2.lastMetricsCalculationTime = now1
    ∧ getPerformanceMetrics env2 now2 ((getPerformanceMetrics env1 now1 s).2) =
        (getEmptyMetrics, (getPerformanceMetrics env1 now1 s).2) := by
  have hcalc : calculatePerformanceMetrics env1 s.observedVitals = getEmptyMetrics := by
    unfold calculatePerformanceMetrics
    rw [h1]
    cases hw : env1.windowPerformance <;> simp
  have hget : getPerformanceMetrics env1 now1 s =
      (getEmptyMetrics,
        { s with
            cachedPerformanceMetrics := some getEmptyMetrics
            lastMetricsCalculationTime := now1 }) := by
    unfold getPerformanceMetrics
    rw [h0]
    simp [hcalc]
  refine ⟨by rw [hget], by rw [hget], by rw [hget], ?_⟩
  rw [hget]
  unfold getPerformanceMetrics
  simp [METRICS_CACHE_DURATION, h2]

/-- Witness for C10: a failing aggregation at time 0 caches the empty
fallback, and a healthy environment at time 1000 still receives it. -/
theorem empty_fallback_cached_witness :
    (getPerformanceMetrics envFailing 0 initialState).1 = getEmptyMetrics
    ∧ getPerformanceMetrics envPlain 1000 ((getPerformanceMetrics envFailing 0 initialState).2) =
        (getEmptyMetrics, (getPerformanceMetrics envFailing 0 initialState).2) :=
  ⟨(empty_fallback_cached envFailing envPlain 0 1000 initialState rfl rfl (by norm_num)).1,
   (empty_fallback_cached envFailing envPlain 0 1000 initialState rfl rfl (by norm_num)).2.2.2⟩

theorem clsCallback_cls (entries : List LayoutShiftEntry) (v : PerformanceMetrics) :
    (clsCallback entries v).cls =
      v.cls + ((entries.filter (fun e => !e.hadRecentInput)).map (fun e => e.value)).sum := by
  induction entries generalizing v with
  | nil => simp [clsCallback]
  | cons e rest ih =>
    simp only [clsCallback, List.foldl_cons] at ih ⊢
    cases he : e.hadRecentInput <;>
      simp [he, ih, add_assoc]

/-- C3: starting from a store whose cls is 0, delivering any sequence of
layout-shift batches to the CLS listener leaves cls equal to the sum of
the values of exactly the entries whose hadRecentInput flag is false. -/
theorem cls_accumulates_non_input_shifts (batches : List (List LayoutShiftEntry))
    (v : PerformanceMetrics) (h : v.cls = 0) :
    (batches.foldl (fun vv b => clsCallback b vv) v).cls =
      ((batches.flatten.filter (fun e => !e.hadRecentInput)).map (fun e => e.value)).sum := by
  have general : ∀ (bs : List (List LayoutShiftEntry)) (w : PerformanceMetrics),
      (bs.foldl (fun vv b => clsCallback b vv) w).cls =
        w.cls + ((bs.flatten.filter (fun e => !e.hadRecentInput)).map (fun e => e.value)).sum := by
    intro bs
    induction bs with
    | nil => intro w; simp
    | cons b rest ih =>
      intro w
      simp [List.flatten_cons, List.filter_append, List.sum_append, ih,
        clsCallback_cls, add_assoc]
  rw [general batches v, h, zero_add]

/-- Witness for C3: batches with kept values 0.1 and 0.2 and one
recent-input value 5 end with cls = 0.3. -/
theorem cls_accumulates_non_input_shifts_witness :
    (shiftBatchesExample.foldl (fun vv b => clsCallback b vv) initialVitals).cls = 0.3 := by
  rw [cls_accumulates_non_input_shifts shiftBatchesExample initialVitals rfl]
  norm_num [shiftBatchesExample]

theorem initWebVitals_of_initialized (ienv : InitEnv) (s : ModuleState)
    (h : s.vitalsObserversInitialized = true) : initWebVitals ienv s = s := by
  unfold initWebVitals
  rw [h]
  simp

theorem initWebVitals_sets_flag (ienv : InitEnv) (s : ModuleState)
    (hpo : ienv.poAvailable = true) :
    (initWebVitals ienv s).vitalsObserversInitialized = true := by
  cases hf : s.vitalsObserversInitialized with
  | true => rw [initWebVitals_of_initialized ienv s hf, hf]
  | false =>
    cases hlo : ienv.lcpObserveOk <;> cases hco : ienv.clsObserveOk <;>
      cases hfo : ienv.fidObserveOk <;> cases hio : ienv.inpObserveOk <;>
      cases hnav : ienv.navEntry <;>
      simp [initWebVitals, hf, hpo, hlo, hco, hfo, hio, hnav]

/-- C6: initWebVitals is idempotent (running it on an already-initialized
state is a no-op), and two successive calls from the fresh module state
register exactly one set of observer subscriptions. -/
theorem initWebVitals_idempotent (ienv : InitEnv) (s : ModuleState)
    (hpo : ienv.poAvailable = true) :
    initWebVitals ienv (initWebVitals ienv s) = initWebVitals ienv s
    ∧ (initWebVitals ienv (initWebVitals ienv initialState)).activeObservers =
        ((if ienv.lcpObserveOk then [ObserverKind.lcp] else [])
          ++ (if ienv.clsObserveOk then [ObserverKind.cls] else [])
          ++ (if ienv.fidObserveOk then [ObserverKind.fid] else [])
          ++ (if ienv.inpObserveOk then [ObserverKind.inp] else [])) := by
  constructor
  · exact initWebVitals_of_initialized ienv _ (initWebVitals_sets_flag ienv s hpo)
  · rw [initWebVitals_of_initialized ienv _ (initWebVitals_sets_flag ienv initialState hpo)]
    cases hlo : ienv.lcpObserveOk <;> cases hco : ienv.clsObserveOk <;>
      cases hfo : ienv.fidObserveOk <;> cases hio : ienv.inpObserveOk <;>
      cases hnav : ienv.navEntry <;>
      simp [initWebVitals, hpo, hlo, hco, hfo, hio, hnav, initialState]

/-- Witness for C6: with a fully capable browser, calling initWebVitals
twice from the fresh state yields one subscription of each kind. -/
theorem initWebVitals_idempotent_witness :
    ienvAll.poAvailable = true
    ∧ initWebVitals ienvAll (initWebVitals ienvAll initialState) =
        initWebVitals ienvAll initialState
    ∧ (initWebVitals ienvAll (initWebVitals ienvAll initialState)).activeObservers =
        [ObserverKind.lcp, ObserverKind.cls, ObserverKind.fid, ObserverKind.inp] :=
  ⟨rfl, (initWebVitals_idempotent ienvAll initialState rfl).1,
    by rw [(initWebVitals_idempotent ienvAll initialState rfl).2]; rfl⟩

/-- C8 (refuted by the code): resetWebVitals never disconnects the
PerformanceObserver subscriptions (initWebVitals drops their handles), so
after initialization followed by reset all four subscriptions are still
active and a layout-shift entry delivered afterwards still mutates the
store: cls becomes 0.25 instead of staying 0. -/
theorem reset_leaves_observers_active :
    (resetWebVitals (initWebVitals ienvAll initialState)).activeObservers =
      [ObserverKind.lcp, ObserverKind.cls, ObserverKind.fid, ObserverKind.inp]
    ∧ (resetWebVitals (initWebVitals ienvAll initialState)).observedVitals.cls = 0
    ∧ (deliverLayoutShift [{ hadRecentInput := false, value := 0.25 }]
          (resetWebVitals (initWebVitals ienvAll initialState))).observedVitals.cls = 0.25
    ∧ (deliverLayoutShift [{ hadRecentInput := false, value := 0.25 }]
          (resetWebVitals (initWebVitals ienvAll initialState))).observedVitals.cls ≠ 0 := by
  have hcount : ((resetWebVitals (initWebVitals ienvAll initialState)).activeObservers.count
      ObserverKind.cls) = 1 := rfl
  have h3 : (deliverLayoutShift [{ hadRecentInput := false, value := 0.25 }]
      (resetWebVitals (initWebVitals ienvAll initialState))).observedVitals.cls = 0.25 := by
    simp only [deliverLayoutShift, hcount, Function.iterate_one, clsCallback,
      List.foldl_cons, List.foldl_nil]
    norm_num [resetWebVitals, clearPerformanceCache, initialVitals]
  exact ⟨rfl, rfl, h3, by rw [h3]; norm_num⟩

/-! ### Lemmas about the individual warning rules -/

theorem toFixed0_eq_round (q : ℚ) : toFixed0 q = toString (round q) := by
  rw [toFixed0, jsRound, round_eq]

theorem foldl_add_eq_sum_map (l : List Resource) :
    l.foldl (fun sum i => sum + orZero i.transferSize) 0 =
      (l.map (fun i => orZero i.transferSize)).sum := by
  rw [List.sum_eq_foldl, List.foldl_map]

theorem filter_length_pos_iff {α : Type} (p : α → Bool) (l : List α) :
    0 < (l.filter p).length ↔ ∃ i ∈ l, p i = true := by
  rw [List.length_pos_iff_exists_mem]
  simp [List.mem_filter]

theorem warningLargeImages_solution {b : Bool} {images : List Resource}
    {w : PerformanceWarning} (h : warningLargeImages b images = some w) :
    w.solution = largeImagesSolution := by
  simp only [warningLargeImages] at h
  split at h
  · split at h
    · rw [← Option.some.inj h]
    · cases h
  · cases h

theorem warningCls_solution {v : PerformanceMetrics} {w : PerformanceWarning}
    (h : warningCls v = some w) : w.solution = clsSolution := by
  simp only [warningCls] at h
  split at h
  · rw [← Option.some.inj h]
  · cases h

theorem warningTtfb_solution {v : PerformanceMetrics} {w : PerformanceWarning}
    (h : warningTtfb v = some w) : w.solution = ttfbSolution := by
  simp only [warningTtfb] at h
  split at h
  · rw [← Option.some.inj h]
  · cases h

theorem warningInteractivity_solution {v : PerformanceMetrics} {w : PerformanceWarning}
    (h : warningInteractivity v = some w) : w.solution = interactivitySolution := by
  simp only [warningInteractivity] at h
  split at h
  · rw [← Option.some.inj h]
  · cases h

theorem warningHeavyScripts_solution {b : Bool} {scripts : List Resource}
    {w : PerformanceWarning} (h : warningHeavyScripts b scripts = some w) :
    w.solution = heavyScriptsSolution := by
  simp only [warningHeavyScripts] at h
  split at h
  · split at h
    · rw [← Option.some.inj h]
    · cases h
  · cases h

theorem warningMissingAlt_solution {n : ℕ} {w : PerformanceWarning}
    (h : warningMissingAlt n = some w) : w.solution = missingAltSolution := by
  simp only [warningMissingAlt] at h
  split at h
  · rw [← Option.some.inj h]
  · cases h

theorem toList_filter_of_ne (o : Option PerformanceWarning) (sol target : String)
    (hsol : ∀ w, o = some w → w.solution = sol) (hne : sol ≠ target) :
    o.toList.filter (fun w => w.solution == target) = [] := by
  cases o with
  | none => rfl
  | some w =>
    have hw := hsol w rfl
    simp [hw, hne]

theorem toList_filter_of_eq (o : Option PerformanceWarning) (sol : String)
    (hsol : ∀ w, o = some w → w.solution = sol) :
    o.toList.filter (fun w => w.solution == sol) = o.toList := by
  cases o with
  | none => rfl
  | some w => simp [hsol w rfl]

theorem calculatePerformanceMetrics_ok (env : PerfEnv) (v : PerformanceMetrics)
    (n k : ℕ) (rs : List Resource)
    (h1 : env.windowPerformance = true) (h2 : env.totalNodes = Except.ok n)
    (h3 : env.resources = Except.ok rs) (h4 : env.imgsWithoutAlt = Except.ok k) :
    calculatePerformanceMetrics env v =
      { lcp := v.lcp, fid := v.fid, cls := v.cls, ttfb := v.ttfb, inp := v.inp
        totalNodes := n
        totalImages := (rs.filter (fun r => r.initiatorType == "img")).length
        totalScripts := (rs.filter (fun r => r.initiatorType == "script")).length
        totalStylesheets :=
          (rs.filter (fun r => r.initiatorType == "link" || r.initiatorType == "css")).length
        warnings :=
          ((warningLargeImages (optGt v.lcp 2500)
                (rs.filter (fun r => r.initiatorType == "img"))).toList
              ++ (warningCls v).toList
              ++ (warningTtfb v).toList
              ++ (warningInteractivity v).toList
              ++ (warningHeavyScripts (optGt v.lcp 2500)
                  (rs.filter (fun r => r.initiatorType == "script"))).toList)
            ++ (warningMissingAlt k).toList } := by
  unfold calculatePerformanceMetrics calcCore
  rw [h1, h2, h3, h4]
  rfl

theorem warningLargeImages_isSome (b : Bool) (images : List Resource) :
    (warningLargeImages b images).isSome = true ↔
      (b = true ∧ ∃ i ∈ images, orZero i.transferSize > 200000) := by
  cases b with
  | false => simp [warningLargeImages]
  | true =>
    simp only [warningLargeImages, if_true, eq_self_iff_true, true_and]
    by_cases hlen :
        0 < (images.filter (fun i => decide (orZero i.transferSize > 200000))).length
    · rw [if_pos hlen]
      simp only [Option.isSome_some, true_iff]
      have := (filter_length_pos_iff _ images).mp hlen
      simpa using this
    · rw [if_neg hlen]
      simp only [Option.isSome_none]
      constructor
      · intro hfalse
        cases hfalse
      · rintro ⟨i, hi, hgt⟩
        exact absurd ((filter_length_pos_iff _ images).mpr ⟨i, hi, by simpa using hgt⟩) hlen

theorem warningLargeImages_title {b : Bool} {images : List Resource}
    {w : PerformanceWarning} (h : warningLargeImages b images = some w) :
    w.severity = Severity.high
    ∧ w.title =
        toString (images.filter (fun i => decide (orZero i.transferSize > 200000))).length
          ++ " large images detected (avg "
          ++ toString (round
              (((images.filter (fun i => decide (orZero i.transferSize > 200000))).map
                    (fun i => orZero i.transferSize)).sum
                / ((images.filter (fun i => decide (orZero i.transferSize > 200000))).length : ℚ)
                / 1024))
          ++ "KB)" := by
  simp only [warningLargeImages] at h
  split at h
  · split at h
    · rw [← Option.some.inj h]
      exact ⟨rfl, by rw [foldl_add_eq_sum_map, toFixed0_eq_round]⟩
    · cases h
  · cases h

theorem warningInteractivity_isSome (v : PerformanceMetrics) :
    (warningInteractivity v).isSome = true ↔
      (optGt v.fid 100 = true ∨ optGt v.inp 200 = true) := by
  cases hf : optGt v.fid 100 <;> cases hi : optGt v.inp 200 <;>
    simp [warningInteractivity, hf, hi]

theorem warningInteractivity_high {v : PerformanceMetrics} {w : PerformanceWarning}
    (h : warningInteractivity v = some w) : w.severity = Severity.high := by
  simp only [warningInteractivity] at h
  split at h
  · rw [← Option.some.inj h]
  · cases h

theorem warningInteractivity_fid_precedence (v : PerformanceMetrics)
    (hf : optGt v.fid 100 = true) :
    warningInteractivity v =
      some
        { title := "Slow interactivity detected ("
            ++ ("FID: " ++ jsOptRepr v.fid ++ "ms") ++ ")"
          solution := interactivitySolution
          severity := Severity.high } := by
  simp [warningInteractivity, hf]

/-! ### Concrete evaluations of the aggregator -/

theorem calc_oneLargeImage_lcp3000 :
    (calculatePerformanceMetrics envOneLargeImage vitalsLcp3000).warnings =
      [{ title := "1 large images detected (avg 293KB)",
         solution := largeImagesSolution, severity := Severity.high }] := by
  rw [calculatePerformanceMetrics_ok envOneLargeImage vitalsLcp3000 10 0 [imgResource300k]
    rfl rfl rfl rfl]
  norm_num [warningLargeImages, warningCls, warningTtfb, warningInteractivity,
    warningHeavyScripts, warningMissingAlt, optGt, orZero, imgResource300k,
    vitalsLcp3000, initialVitals, toFixed0, jsRound]
  rfl

theorem calc_oneLargeImage_lcp2000 :
    (calculatePerformanceMetrics envOneLargeImage vitalsLcp2000).warnings = [] := by
  rw [calculatePerformanceMetrics_ok envOneLargeImage vitalsLcp2000 10 0 [imgResource300k]
    rfl rfl rfl rfl]
  norm_num [warningLargeImages, warningCls, warningTtfb, warningInteractivity,
    warningHeavyScripts, warningMissingAlt, optGt, orZero, imgResource300k,
    vitalsLcp2000, initialVitals]

theorem calc_plain_cls012345 :
    (calculatePerformanceMetrics envPlain vitalsCls012345).warnings =
      [{ title := "Poor layout stability (CLS: 0.123)",
         solution := clsSolution, severity := Severity.high }] := by
  rw [calculatePerformanceMetrics_ok envPlain vitalsCls012345 0 0 [] rfl rfl rfl rfl]
  norm_num [warningLargeImages, warningCls, warningTtfb, warningInteractivity,
    warningHeavyScripts, warningMissingAlt, optGt, vitalsCls012345, initialVitals,
    toFixed3, jsRound, pad3]
  rfl

theorem calc_plain_ttfb7996 :
    (calculatePerformanceMetrics envPlain vitalsTtfb7996).warnings = [] := by
  rw [calculatePerformanceMetrics_ok envPlain vitalsTtfb7996 0 0 [] rfl rfl rfl rfl]
  norm_num [warningLargeImages, warningCls, warningTtfb, warningInteractivity,
    warningHeavyScripts, warningMissingAlt, optGt, vitalsTtfb7996, initialVitals]

theorem calc_plain_ttfb8001 :
    (calculatePerformanceMetrics envPlain vitalsTtfb8001).warnings =
      [{ title := "Slow server response time (800ms)",
         solution := ttfbSolution, severity := Severity.medium }] := by
  rw [calculatePerformanceMetrics_ok envPlain vitalsTtfb8001 0 0 [] rfl rfl rfl rfl]
  norm_num [warningLargeImages, warningCls, warningTtfb, warningInteractivity,
    warningHeavyScripts, warningMissingAlt, optGt, vitalsTtfb8001, initialVitals,
    toFixed0, jsRound]
  rfl

theorem calc_plain_slowInteraction :
    (calculatePerformanceMetrics envPlain vitalsSlowInteraction).warnings =
      [{ title := "Slow interactivity detected (FID: 150ms)",
         solution := interactivitySolution, severity := Severity.high }] := by
  rw [calculatePerformanceMetrics_ok envPlain vitalsSlowInteraction 0 0 [] rfl rfl rfl rfl]
  norm_num [warningLargeImages, warningCls, warningTtfb, warningInteractivity,
    warningHeavyScripts, warningMissingAlt, optGt, vitalsSlowInteraction, initialVitals,
    jsOptRepr, jsNumRepr]
  rfl

/-- C4: the large-images warning is present iff lcp exceeds 2500 ms and
some image resource exceeds 200000 transferred bytes; it is then the
unique warning carrying the large-images remediation text, has high
severity, and its title reports the count of such images and their mean
transfer size divided by 1024 and rounded to the nearest KB; with
lcp = 3000 and a single 300000-byte image the emitted warnings are
exactly one high warning titled `1 large images detected (avg 293KB)`,
and with lcp = 2000 and the same image no warning is emitted. -/
theorem large_images_warning_spec (env : PerfEnv) (v : PerformanceMetrics)
    (n k : ℕ) (rs images : List Resource)
    (h1 : env.windowPerformance = true) (h2 : env.totalNodes = Except.ok n)
    (h3 : env.resources = Except.ok rs) (h4 : env.imgsWithoutAlt = Except.ok k)
    (himg : images = rs.filter (fun r => r.initiatorType == "img")) :
    (calculatePerformanceMetrics env v).warnings.filter
        (fun w => w.solution == largeImagesSolution) =
      (warningLargeImages (optGt v.lcp 2500) images).toList
    ∧ ((warningLargeImages (optGt v.lcp 2500) images).isSome = true ↔
        (optGt v.lcp 2500 = true ∧ ∃ i ∈ images, orZero i.transferSize > 200000))
    ∧ (∀ w, warningLargeImages (optGt v.lcp 2500) images = some w →
        w.severity = Severity.high
        ∧ w.title =
            toString (images.filter (fun i => decide (orZero i.transferSize > 200000))).length
              ++ " large images detected (avg "
              ++ toString (round
                  (((images.filter (fun i => decide (orZero i.transferSize > 200000))).map
                        (fun i => orZero i.transferSize)).sum
                    / ((images.filter
                        (fun i => decide (orZero i.transferSize > 200000))).length : ℚ)
                    / 1024))
              ++ "KB)")
    ∧ (calculatePerformanceMetrics envOneLargeImage vitalsLcp3000).warnings =
        [{ title := "1 large images detected (avg 293KB)",
           solution := largeImagesSolution, severity := Severity.high }]
    ∧ (calculatePerformanceMetrics envOneLargeImage vitalsLcp2000).warnings = [] := by
  subst himg
  refine ⟨?_, warningLargeImages_isSome _ _, fun w hw => warningLargeImages_title hw,
    calc_oneLargeImage_lcp3000, calc_oneLargeImage_lcp2000⟩
  rw [calculatePerformanceMetrics_ok env v n k rs h1 h2 h3 h4]
  simp only [List.filter_append]
  rw [toList_filter_of_eq _ _ (fun w hw => warningLargeImages_solution hw),
    toList_filter_of_ne _ _ _ (fun w hw => warningCls_solution hw) (by decide),
    toList_filter_of_ne _ _ _ (fun w hw => warningTtfb_solution hw) (by decide),
    toList_filter_of_ne _ _ _ (fun w hw => warningInteractivity_solution hw) (by decide),
    toList_filter_of_ne _ _ _ (fun w hw => warningHeavyScripts_solution hw) (by decide),
    toList_filter_of_ne _ _ _ (fun w hw => warningMissingAlt_solution hw) (by decide)]
  simp

/-- Witness for C4: the two concrete gating scenarios, obtained from the
theorem at the 300000-byte image environment. -/
theorem large_images_warning_spec_witness :
    envOneLargeImage.windowPerformance = true
    ∧ (calculatePerformanceMetrics envOneLargeImage vitalsLcp3000).warnings =
        [{ title := "1 large images detected (avg 293KB)",
           solution := largeImagesSolution, severity := Severity.high }]
    ∧ (calculatePerformanceMetrics envOneLargeImage vitalsLcp2000).warnings = [] :=
  ⟨rfl,
    (large_images_warning_spec envOneLargeImage vitalsLcp3000 10 0 [imgResource300k]
      [imgResource300k] rfl rfl rfl rfl rfl).2.2.2.1,
    (large_images_warning_spec envOneLargeImage vitalsLcp2000 10 0 [imgResource300k]
      [imgResource300k] rfl rfl rfl rfl rfl).2.2.2.2⟩

/-- C5 counterexample: the code renders the 300000-byte average as 293KB
(toFixed(0) rounds to nearest), while truncation after dividing by 1024
would give 292, so the claim that KB sizes are truncated is false. -/
theorem kb_truncation_counterexample :
    (calculatePerformanceMetrics envOneLargeImage vitalsLcp3000).warnings.map
        (fun w => w.title) = ["1 large images detected (avg 293KB)"]
    ∧ toString ⌊(300000 : ℚ) / 1024⌋ = "292"
    ∧ ("1 large images detected (avg 293KB)" : String) ≠
        "1 large images detected (avg 292KB)" := by
  refine ⟨by rw [calc_oneLargeImage_lcp3000]; rfl, ?_, by decide⟩
  have h : ⌊(300000 : ℚ) / 1024⌋ = (292 : ℤ) := by norm_num
  rw [h]
  rfl

/-- C5 as amended: KB sizes in warning titles are rounded to the nearest
integer (ties upward, as JS toFixed(0)) after dividing by 1024, not
truncated; the CLS value is reported to exactly 3 decimal places
(cls = 0.12345 renders as 0.123); the TTFB value is reported with 0
decimal places; and the TTFB warning fires iff ttfb is strictly greater
than 800 (799.6 does not fire; 800.1 fires and renders as 800). -/
theorem numeric_formatting_spec :
    (∀ q : ℚ, toFixed0 q = toString (round q))
    ∧ (calculatePerformanceMetrics envOneLargeImage vitalsLcp3000).warnings.map
        (fun w => w.title) = ["1 large images detected (avg 293KB)"]
    ∧ (calculatePerformanceMetrics envPlain vitalsCls012345).warnings.map
        (fun w => w.title) = ["Poor layout stability (CLS: 0.123)"]
    ∧ (∀ t : ℚ,
        (warningTtfb { initialVitals with ttfb := some t }).isSome = true ↔ 800 < t)
    ∧ (calculatePerformanceMetrics envPlain vitalsTtfb7996).warnings = []
    ∧ (calculatePerformanceMetrics envPlain vitalsTtfb8001).warnings.map
        (fun w => w.title) = ["Slow server response time (800ms)"] := by
  refine ⟨toFixed0_eq_round, by rw [calc_oneLargeImage_lcp3000]; rfl,
    by rw [calc_plain_cls012345]; rfl, ?_, calc_plain_ttfb7996,
    by rw [calc_plain_ttfb8001]; rfl⟩
  intro t
  by_cases h : (800 : ℚ) < t <;> simp [warningTtfb, optGt, h]

/-- C9: the poor-interactivity warning is present iff fid exceeds 100 ms
or inp exceeds 200 ms (each compared only when present); it is the
unique warning carrying the interactivity remediation text, has high
severity, and whenever fid qualifies — in particular when both do — the
title displays FID's value; with fid = 150 and inp = 300 the emitted
warnings are exactly one high warning titled
`Slow interactivity detected (FID: 150ms)`. -/
theorem interactivity_warning_spec (env : PerfEnv) (v : PerformanceMetrics)
    (n k : ℕ) (rs : List Resource)
    (h1 : env.windowPerformance = true) (h2 : env.totalNodes = Except.ok n)
    (h3 : env.resources = Except.ok rs) (h4 : env.imgsWithoutAlt = Except.ok k) :
    (calculatePerformanceMetrics env v).warnings.filter
        (fun w => w.solution == interactivitySolution) =
      (warningInteractivity v).toList
    ∧ ((warningInteractivity v).isSome = true ↔
        (optGt v.fid 100 = true ∨ optGt v.inp 200 = true))
    ∧ (∀ w, warningInteractivity v = some w → w.severity = Severity.high)
    ∧ (optGt v.fid 100 = true →
        warningInteractivity v =
          some
            { title := "Slow interactivity detected ("
                ++ ("FID: " ++ jsOptRepr v.fid ++ "ms") ++ ")"
              solution := interactivitySolution
              severity := Severity.high })
    ∧ (calculatePerformanceMetrics envPlain vitalsSlowInteraction).warnings =
        [{ title := "Slow interactivity detected (FID: 150ms)",
           solution := interactivitySolution, severity := Severity.high }] := by
  refine ⟨?_, warningInteractivity_isSome v, fun w hw => warningInteractivity_high hw,
    fun hf => warningInteractivity_fid_precedence v hf, calc_plain_slowInteraction⟩
  rw [calculatePerformanceMetrics_ok env v n k rs h1 h2 h3 h4]
  simp only [List.filter_append]
  rw [toList_filter_of_ne _ _ _ (fun w hw => warningLargeImages_solution hw) (by decide),
    toList_filter_of_ne _ _ _ (fun w hw => warningCls_solution hw) (by decide),
    toList_filter_of_ne _ _ _ (fun w hw => warningTtfb_solution hw) (by decide),
    toList_filter_of_eq _ _ (fun w hw => warningInteractivity_solution hw),
    toList_filter_of_ne _ _ _ (fun w hw => warningHeavyScripts_solution hw) (by decide),
    toList_filter_of_ne _ _ _ (fun w hw => warningMissingAlt_solution hw) (by decide)]
  simp

/-- Witness for C9: with fid = 150 and inp = 300 both past their
thresholds, the warning displays FID's value. -/
theorem interactivity_warning_spec_witness :
    optGt vitalsSlowInteraction.fid 100 = true
    ∧ optGt vitalsSlowInteraction.inp 200 = true
    ∧ warningInteractivity vitalsSlowInteraction =
        some
          { title := "Slow interactivity detected ("
              ++ ("FID: " ++ jsOptRepr vitalsSlowInteraction.fid ++ "ms") ++ ")"
            solution := interactivitySolution
            severity := Severity.high }
    ∧ (calculatePerformanceMetrics envPlain vitalsSlowInteraction).warnings =
        [{ title := "Slow interactivity detected (FID: 150ms)",
           solution := interactivitySolution, severity := Severity.high }] := by
  have hf : optGt vitalsSlowInteraction.fid 100 = true := by
    norm_num [vitalsSlowInteraction, initialVitals, optGt]
  have hi : optGt vitalsSlowInteraction.inp 200 = true := by
    norm_num [vitalsSlowInteraction, initialVitals, optGt]
  exact ⟨hf, hi,
    (interactivity_warning_spec envPlain vitalsSlowInteraction 0 0 [] rfl rfl rfl rfl).2.2.2.1 hf,
    (interactivity_warning_spec envPlain vitalsSlowInteraction 0 0 [] rfl rfl rfl rfl).2.2.2.2⟩

end DevInspect
